import Mathlib

/-!
A shallow embedding of the planning logic of the `lxd init` interactive wizard
(`lxd/main_init_interactive.go`): string-keyed configuration maps, the
cluster-join loop with its resource reconciliation, storage-pool planning
(driver defaults, loop-device sizing, name collisions), network-bridge
planning, MAAS configuration and daemon configuration.  The prompting
collaborators (`shared/cmd`) and host introspection are modelled as explicit
inputs, the operator as streams of answers.
-/

/-- A Go `map[string]string`: reading an absent key yields `""`, writing
replaces the existing binding or inserts a new one. -/
abbrev Config := List (String × String)

/-- Map lookup; `""` for an absent key (the Go zero value). -/
def cfgGet (c : Config) (k : String) : String :=
  match c with
  | [] => ""
  | (k0, v) :: rest => if k0 = k then v else cfgGet rest k

/-- Map update: replace the binding for `k`, or append a new one. -/
def cfgSet (c : Config) (k v : String) : Config :=
  match c with
  | [] => [(k, v)]
  | (k0, v0) :: rest => if k0 = k then (k, v) :: rest else (k0, v0) :: cfgSet rest k v

/-- Key presence in the map. -/
def cfgHas (c : Config) (k : String) : Bool :=
  match c with
  | [] => false
  | (k0, _) :: rest => if k0 = k then true else cfgHas rest k

/-- Modelled from the spec: the prompting collaborator
`AskString(question, default, validator) -> string` with no validator; an
empty operator answer stands for the default. -/
def askString (deflt answer : String) : String :=
  if answer = "" then deflt else answer

/-- Modelled from the spec: `AskString` with a validator re-prompts until an
answer passes; the result is the first passing answer of the operator's
answer stream, `none` when no answer ever passes (the prompt loops forever). -/
def askStringValidated (valid : String → Bool) (answers : List String) : Option String :=
  answers.find? valid

/-- Modelled from the spec: `AskChoice(question, options, default) -> string`
re-prompts until the answer is one of the options; an exhausted answer stream
stands for the operator accepting the default. -/
def askChoice (options : List String) (deflt : String) (answers : List String) : String :=
  match answers.find? (fun a => options.contains a) with
  | some a => a
  | none => deflt

/-- Modelled from the spec: `AskInt(question, min, max, default) -> int`
re-prompts until the answer is an integer within the bounds, where `-1` as
the maximum means unbounded; a `none` entry is an empty answer standing for
the default.  `none` overall means no acceptable answer was ever given. -/
def askInt (mini maxi deflt : Int) (answers : List (Option Int)) : Option Int :=
  (answers.map (fun a => a.getD deflt)).find?
    (fun a => decide (mini ≤ a) && (maxi == -1 || decide (a ≤ maxi)))

/-- The helper `shared.StringInSlice`: membership of a string in a slice. -/
def stringInSlice (key : String) (l : List String) : Bool :=
  l.contains key

/-- Go `fmt.Sprintf("%v", b)` on a boolean. -/
def boolString (b : Bool) : String :=
  if b then "true" else "false"

/-- The fields of `syscall.Statfs_t` the wizard touches: the fragment size and
the total block count (read at line 496), plus the free-block count (the
free-space figure the specification speaks about, carried only so the two
notions can be compared). -/
structure Statfs where
  frsize : Nat
  blocks : Nat
  bfree : Nat
deriving DecidableEq

/-- Line 496: `uint64(st.Frsize) * st.Blocks / (1024*1024*1024) / 5`, with Go
64-bit wraparound on the product. -/
def rawPoolSize (st : Statfs) : Nat :=
  st.frsize * st.blocks % 2 ^ 64 / (1024 * 1024 * 1024) / 5

/-- Lines 495-502: the offered default loop-device size in GB, the raw figure
clamped into the inclusive range [15, 100]. -/
def defaultPoolSize (st : Statfs) : Nat :=
  let ds := rawPoolSize st
  let ds2 := if ds > 100 then 100 else ds
  if ds2 < 15 then 15 else ds2

/-- The default the specification describes, kept only for the refinement
comparison with `defaultPoolSize`: 20% of the node's FREE space in the
data-directory filesystem (fragment size times free blocks) in GB, clamped
into [15, 100]. -/
def specFreeSpacePoolSize (st : Statfs) : Nat :=
  let ds := st.frsize * st.bfree / (1024 * 1024 * 1024) / 5
  let ds2 := if ds > 100 then 100 else ds
  if ds2 < 15 then 15 else ds2

/-- Lines 408-415: the preferred default storage driver, computed from the
detected backing filesystem and the candidate driver set. -/
def defaultStorageDriver (backingFs : String) (availableBackends : List String) : String :=
  if backingFs = "btrfs" && stringInSlice "btrfs" availableBackends then "btrfs"
  else if stringInSlice "zfs" availableBackends then "zfs"
  else if stringInSlice "btrfs" availableBackends then "btrfs"
  else "dir"

/-- A storage pool as listed by the remote cluster node (`api.StoragePool`,
the fields the wizard reads). -/
structure StoragePool where
  name : String
  driver : String
  status : String
  description : String
  config : Config
deriving DecidableEq

/-- A storage pool planned for creation (`api.StoragePoolsPost`, the fields
the wizard writes). -/
structure StoragePoolsPost where
  name : String
  driver : String
  description : String
  config : Config
deriving DecidableEq

/-- A network as listed by the remote cluster node (`api.Network`, the fields
the wizard reads). -/
structure Network where
  name : String
  netType : String
  managed : Bool
  status : String
  description : String
  config : Config
deriving DecidableEq

/-- A network planned for creation (`api.NetworksPost`, the fields the wizard
writes). -/
structure NetworksPost where
  name : String
  netType : String
  managed : Bool
  description : String
  config : Config
deriving DecidableEq

/-- Lines 185-198: the local pool built from one remote pool; the
node-specific `source` key is re-asked when the remote value is non-empty
(the operator's answer per pool name is `askSource`). -/
def reconcilePool (askSource : String → String) (pool : StoragePool) : StoragePoolsPost :=
  let newPool : StoragePoolsPost :=
    { name := pool.name, driver := pool.driver, description := pool.description,
      config := pool.config }
  if cfgGet pool.config "source" ≠ "" then
    { newPool with config := cfgSet newPool.config "source" (askSource pool.name) }
  else newPool

/-- Lines 173-201: the join-mode storage-pool reconciliation; pending pools
and ceph pools are skipped, every other pool is kept. -/
def reconcilePools (askSource : String → String) : List StoragePool → List StoragePoolsPost
  | [] => []
  | pool :: rest =>
    if pool.status = "PENDING" then reconcilePools askSource rest
    else if pool.driver = "ceph" then reconcilePools askSource rest
    else reconcilePool askSource pool :: reconcilePools askSource rest

/-- Lines 216-230: the local network built from one remote network; the
node-specific `bridge.external_interfaces` key is re-asked when set remotely. -/
def reconcileNetwork (askIface : String → String) (n : Network) : NetworksPost :=
  let newNetwork : NetworksPost :=
    { name := n.name, netType := n.netType, managed := true,
      description := n.description, config := n.config }
  if cfgGet n.config "bridge.external_interfaces" ≠ "" then
    { newNetwork with
        config := cfgSet newNetwork.config "bridge.external_interfaces" (askIface n.name) }
  else newNetwork

/-- Lines 209-233: the join-mode network reconciliation; unmanaged and pending
networks are skipped. -/
def reconcileNetworks (askIface : String → String) : List Network → List NetworksPost
  | [] => []
  | n :: rest =>
    if !n.managed || n.status = "PENDING" then reconcileNetworks askIface rest
    else reconcileNetwork askIface n :: reconcileNetworks askIface rest

/-- Index of the first occurrence of a character, counting from `n`. -/
def firstIdxFrom (c : Char) : List Char → Nat → Option Nat
  | [], _ => none
  | x :: xs, n => if x = c then some n else firstIdxFrom c xs (n + 1)

/-- Index of the first occurrence of a character. -/
def firstIdx (c : Char) (l : List Char) : Option Nat :=
  firstIdxFrom c l 0

/-- Index of the last occurrence of a character. -/
def lastIdx (c : Char) (l : List Char) : Option Nat :=
  match firstIdx c l.reverse with
  | none => none
  | some m => some (l.length - 1 - m)

/-- Success predicate of Go `net.SplitHostPort` (the standard-library
collaborator called at line 112): the last colon separates host from port, a
`[...]`-bracketed host must be followed directly by the port colon, an
unbracketed host may not contain a colon, and no stray brackets may remain. -/
def splitHostPortOk (s : String) : Bool :=
  let cs := s.data
  match lastIdx ':' cs with
  | none => false
  | some i =>
    let jk : Option (Nat × Nat) :=
      if cs.head? = some '[' then
        match firstIdx ']' cs with
        | none => none
        | some e =>
          if e + 1 = cs.length then none
          else if e + 1 = i then some (1, e + 1)
          else none
      else
        if (cs.take i).contains ':' then none else some (0, 0)
    match jk with
    | none => false
    | some (j, k) => !((cs.drop j).contains '[') && !((cs.drop k).contains ']')

/-- Lines 111-115: append the fixed default management port 8443 when the
address the operator entered does not already split into host and port. -/
def normalizeClusterAddress (s : String) : String :=
  if splitHostPortOk s then s else s ++ ":8443"

/-- One round of the join loop (lines 109-135): the address the operator
entered, the result of the remote-certificate fetch (`none` is a connection
error), the fingerprint confirmation answer, and the trust password. -/
structure JoinAttempt where
  address : String
  fetched : Option String
  fingerprintOk : Bool
  password : String
deriving DecidableEq

/-- The cluster fields stored by a successful join loop. -/
structure JoinInfo where
  clusterAddress : String
  clusterCertificate : String
  clusterPassword : String
deriving DecidableEq

/-- Lines 109-135: the join loop.  A failed certificate fetch re-prompts for
the address; a rejected fingerprint aborts with a terminal error; otherwise
the normalized address, the fetched certificate and the password are kept.
`none` means the operator input stream ran out while the loop was still
re-prompting. -/
def joinLoop : List JoinAttempt → Option (Except String JoinInfo)
  | [] => none
  | a :: rest =>
    match a.fetched with
    | none => joinLoop rest
    | some certPem =>
      if !a.fingerprintOk then some (Except.error "User aborted configuration")
      else some (Except.ok
        { clusterAddress := normalizeClusterAddress a.address,
          clusterCertificate := certPem, clusterPassword := a.password })

/-- The data a completed cluster join contributes to the wizard's output. -/
structure ClusterJoinOutcome where
  join : JoinInfo
  storagePools : List StoragePoolsPost
  networks : List NetworksPost
deriving DecidableEq

/-- `errors.Wrap`: prefix a message onto a cause. -/
def wrapErr (msg e : String) : String :=
  msg ++ ": " ++ e

/-- Lines 107-233: the whole join branch of `askClustering`.  After the join
loop: the data-wipe confirmation, loading the local certificate, the trust
exchange (`trustResult` is `some e` on failure), the two remote resource
listings, and the reconciliation of pools and networks. -/
def askClusteringJoin (attempts : List JoinAttempt) (wipeOk : Bool)
    (localCert : Except String String) (trustResult : Option String)
    (remotePools : Except String (List StoragePool))
    (remoteNetworks : Except String (List Network))
    (askSource askIface : String → String) : Option (Except String ClusterJoinOutcome) :=
  match joinLoop attempts with
  | none => none
  | some (Except.error e) => some (Except.error e)
  | some (Except.ok j) =>
    if !wipeOk then some (Except.error "User aborted configuration")
    else
      match localCert with
      | Except.error e => some (Except.error e)
      | Except.ok _ =>
        match trustResult with
        | some e => some (Except.error (wrapErr "Failed to setup trust relationship with cluster" e))
        | none =>
          match remotePools with
          | Except.error e =>
            some (Except.error (wrapErr "Failed to retrieve storage pools from the cluster" e))
          | Except.ok pools =>
            match remoteNetworks with
            | Except.error e =>
              some (Except.error (wrapErr "failed to retrieve networks from the cluster" e))
            | Except.ok nets =>
              some (Except.ok
                { join := j,
                  storagePools := reconcilePools askSource pools,
                  networks := reconcileNetworks askIface nets })

/-- Lines 245-264, `askMAAS`: the daemon-configuration effect of the MAAS
step.  `serverName` is the system hostname (or the fallback), the remaining
strings are the operator's raw answers. -/
def askMAAS (conn : Bool) (serverName hostAnswer urlAnswer keyAnswer : String)
    (config : Config) : Config :=
  if !conn then config
  else
    let maasHostname := askString serverName hostAnswer
    let config1 := if maasHostname ≠ serverName then cfgSet config "maas.machine" maasHostname else config
    let config2 := cfgSet config1 "maas.api.url" (askString "" urlAnswer)
    cfgSet config2 "maas.api.key" (askString "" keyAnswer)

/-- The planned bridge together with the `eth0` device registered on the
default profile. -/
structure BridgePlan where
  network : NetworksPost
  eth0Device : Config
deriving DecidableEq

/-- Lines 312-364, the body of the new-bridge loop once a free name is found:
the IPv4 and IPv6 addresses are the validated answers (a CIDR, `"auto"` or
`"none"`), and for each protocol the NAT question is asked only for a
concrete address. -/
def buildBridgeNetwork (name addr4 addr6 : String) (nat4 nat6 : Bool) : BridgePlan :=
  let eth0 : Config :=
    [("type", "nic"), ("nictype", "bridged"), ("name", "eth0"), ("parent", name)]
  let cfg : Config := cfgSet [] "ipv4.address" addr4
  let cfg := if !stringInSlice addr4 ["auto", "none"] then cfgSet cfg "ipv4.nat" (boolString nat4) else cfg
  let cfg := cfgSet cfg "ipv6.address" addr6
  let cfg := if !stringInSlice addr6 ["auto", "none"] then cfgSet cfg "ipv6.nat" (boolString nat6) else cfg
  { network := { name := name, netType := "", managed := false, description := "", config := cfg },
    eth0Device := eth0 }

/-- Lines 312-364: the new-bridge loop; a name colliding with an existing
network (`d.GetNetwork` succeeding) is rejected and the loop re-prompts. -/
def askNetworkingBridge (existingNetworks : List String) (addr4 addr6 : String)
    (nat4 nat6 : Bool) : List String → Option BridgePlan
  | [] => none
  | p :: rest =>
    let name := askString "lxdbr0" p
    if existingNetworks.contains name then
      askNetworkingBridge existingNetworks addr4 addr6 nat4 nat6 rest
    else some (buildBridgeNetwork name addr4 addr6 nat4 nat6)

/-- Lines 549-599, `askDaemon`: the daemon-configuration effect (profile
changes aside).  `isV4` models `net.ParseIP(x).To4() != nil`; the listener
questions run only for a non-clustered node that wants network access, the
image auto-update question always runs. -/
def askDaemon (isV4 : String → Bool) (clusterNil overNetwork : Bool) (netAddrAnswer : String)
    (netPort : Int) (trustPassword : String) (autoUpdate : Bool) (config : Config) : Config :=
  let config1 :=
    if clusterNil && overNetwork then
      let netAddr := if netAddrAnswer = "all" then "::" else netAddrAnswer
      let netAddr := if !isV4 netAddr then "[" ++ netAddr ++ "]" else netAddr
      cfgSet (cfgSet config "core.https_address" (netAddr ++ ":" ++ toString netPort))
        "core.trust_password" trustPassword
    else config
  if !autoUpdate then cfgSet config1 "images.auto_update_interval" "0" else config1

/-- The host observations `askStoragePool` makes: the names for which the
local `GetStoragePool` succeeds, the detected backing filesystem (`none` is a
detection failure), the statfs result for the data directory (an error value
is a statfs failure), the block-device check, the `thin_check` lookup, and the
data-directory path. -/
structure StorageHost where
  existingPools : List String
  backingFsDetect : Option String
  statfs : Except String Statfs
  isBlockdev : String → Bool
  hasThinCheck : Bool
  varPath : String

/-- The operator's answers inside one `askStoragePool` run (name proposals
are passed separately). -/
structure StorageAnswers where
  driverAnswers : List String
  btrfsSubvol : Bool
  createNew : Bool
  cephClusterName : String
  cephPoolName : String
  cephPGNum : String
  useExistingBlock : Bool
  blockDevAnswers : List String
  sizeAnswers : List (Option Int)
  existingSourceAnswer : String
  cephExistClusterName : String
  cephExistPoolName : String
  thinContinue : Bool

/-- A planned pool together with the `root` disk device registered on the
default profile. -/
structure PoolPlan where
  pool : StoragePoolsPost
  rootDevice : Config
deriving DecidableEq

/-- Packaging of a planned pool with its profile root-disk device. -/
def mkPoolPlan (name driver : String) (cfg : Config) : PoolPlan :=
  { pool := { name := name, driver := driver, description := "", config := cfg },
    rootDevice := [("type", "disk"), ("path", "/"), ("pool", name)] }

/-- Lines 468-540: the driver-specific config of a non-dir, non-subvolume
pool: either create a new backing store (ceph parameters, an existing block
device, or a sized loop device) or reuse an existing pool or dataset, then
the LVM thin-provisioning check. -/
def poolDriverConfig (host : StorageHost) (ans : StorageAnswers) (driver : String) :
    Option (Except String Config) :=
  let base : Option (Except String Config) :=
    if ans.createNew then
      if driver = "ceph" then
        some (Except.ok (cfgSet (cfgSet (cfgSet []
          "ceph.cluster_name" (askString "ceph" ans.cephClusterName))
          "ceph.osd.pool_name" (askString "lxd" ans.cephPoolName))
          "ceph.osd.pg_num" (askString "32" ans.cephPGNum)))
      else if ans.useExistingBlock then
        match askStringValidated host.isBlockdev ans.blockDevAnswers with
        | none => none
        | some src => some (Except.ok (cfgSet [] "source" src))
      else
        match host.statfs with
        | Except.error e => some (Except.error (wrapErr ("Couldn't statfs " ++ host.varPath) e))
        | Except.ok st =>
          match askInt 1 (-1) (Int.ofNat (defaultPoolSize st)) ans.sizeAnswers with
          | none => none
          | some n => some (Except.ok (cfgSet [] "size" (toString n ++ "GB")))
    else
      if driver = "ceph" then
        let src := askString "lxd" ans.cephExistPoolName
        some (Except.ok (cfgSet (cfgSet (cfgSet []
          "ceph.cluster_name" (askString "ceph" ans.cephExistClusterName))
          "source" src)
          "ceph.osd.pool_name" src))
      else
        some (Except.ok (cfgSet [] "source" (askString "" ans.existingSourceAnswer)))
  match base with
  | none => none
  | some (Except.error e) => some (Except.error e)
  | some (Except.ok cfg) =>
    if driver = "lvm" && !host.hasThinCheck then
      if !ans.thinContinue then
        some (Except.error "The LVM thin provisioning tools couldn't be found on the system")
      else some (Except.ok (cfgSet cfg "lvm.use_thinpool" "false"))
    else some (Except.ok cfg)

/-- Lines 438-543: the loop body of `askStoragePool` once a non-colliding
name is fixed: driver selection (a choice only when several candidates
exist), the dir short-cut, the btrfs-on-btrfs subvolume short-cut, then the
driver-specific config. -/
def poolBody (host : StorageHost) (ans : StorageAnswers) (backingFs defaultStorage : String)
    (b : String) (bs : List String) (name : String) : Option (Except String PoolPlan) :=
  let driver := if bs.isEmpty then b else askChoice (b :: bs) defaultStorage ans.driverAnswers
  if driver = "dir" then some (Except.ok (mkPoolPlan name driver []))
  else if driver = "btrfs" && backingFs = "btrfs" && ans.btrfsSubvol then
    some (Except.ok (mkPoolPlan name driver
      (cfgSet [] "source" (host.varPath ++ "/storage-pools/" ++ name))))
  else
    match poolDriverConfig host ans driver with
    | none => none
    | some (Except.error e) => some (Except.error e)
    | some (Except.ok cfg) => some (Except.ok (mkPoolPlan name driver cfg))

/-- Lines 417-436 for the free-form role `"all"`: the naming loop; a proposal
colliding with an existing pool is rejected and the loop re-prompts. -/
def askStoragePoolNameLoop (host : StorageHost) (ans : StorageAnswers) (b : String)
    (bs : List String) (backingFs defaultStorage : String) :
    List String → Option (Except String PoolPlan)
  | [] => none
  | p :: rest =>
    let name := askString "default" p
    if host.existingPools.contains name then
      askStoragePoolNameLoop host ans b bs backingFs defaultStorage rest
    else poolBody host ans backingFs defaultStorage b bs name

/-- Lines 395-547, `askStoragePool`: candidate-set check, backing-filesystem
detection with `"dir"` fallback, default-driver computation, then the naming
loop (role `"all"`) or the fixed role name whose collision is fatal.
`availableBackends` stands for `c.availableStorageDrivers(poolType)`, a
helper outside this file's source. -/
def askStoragePool (host : StorageHost) (ans : StorageAnswers)
    (availableBackends : List String) (poolType : String) (nameProposals : List String) :
    Option (Except String PoolPlan) :=
  match availableBackends with
  | [] => some (Except.error ("No " ++ poolType ++ " storage backends available"))
  | b :: bs =>
    let backingFs := host.backingFsDetect.getD "dir"
    let ds := defaultStorageDriver backingFs (b :: bs)
    if poolType = "all" then
      askStoragePoolNameLoop host ans b bs backingFs ds nameProposals
    else if host.existingPools.contains poolType then
      some (Except.error ("The " ++ poolType ++ " storage pool already exists"))
    else poolBody host ans backingFs ds b bs poolType

/-- Lines 369-393, `askStorage`: in cluster mode an optional `"local"` and an
optional `"remote"` pool, otherwise one optional free-form pool. -/
def askStorage (host : StorageHost) (ansLocal ansRemote ansAll : StorageAnswers)
    (clusterEnabled confLocal confRemote confPool : Bool)
    (backendsLocal backendsRemote backendsAll : List String)
    (nameProposals : List String) : Option (Except String (List PoolPlan)) :=
  if clusterEnabled then
    let step1 : Option (Except String (List PoolPlan)) :=
      if confLocal then
        match askStoragePool host ansLocal backendsLocal "local" [] with
        | none => none
        | some (Except.error e) => some (Except.error e)
        | some (Except.ok r) => some (Except.ok [r])
      else some (Except.ok [])
    match step1 with
    | none => none
    | some (Except.error e) => some (Except.error e)
    | some (Except.ok l1) =>
      if confRemote then
        match askStoragePool host ansRemote backendsRemote "remote" [] with
        | none => none
        | some (Except.error e) => some (Except.error e)
        | some (Except.ok r) => some (Except.ok (l1 ++ [r]))
      else some (Except.ok l1)
  else
    if !confPool then some (Except.ok [])
    else
      match askStoragePool host ansAll backendsAll "all" nameProposals with
      | none => none
      | some (Except.error e) => some (Except.error e)
      | some (Except.ok r) => some (Except.ok [r])

/-! ## Helper lemmas about the configuration maps -/

theorem cfgGet_set_self (c : Config) (k v : String) : cfgGet (cfgSet c k v) k = v := by
  induction c with
  | nil => simp [cfgSet, cfgGet]
  | cons kv rest ih =>
    obtain ⟨k0, v0⟩ := kv
    by_cases h : k0 = k <;> simp [cfgSet, cfgGet, h, ih]

theorem cfgGet_set_ne (c : Config) (k j v : String) (h : j ≠ k) :
    cfgGet (cfgSet c k v) j = cfgGet c j := by
  have hk : k ≠ j := Ne.symm h
  induction c with
  | nil => simp [cfgSet, cfgGet, hk]
  | cons kv rest ih =>
    obtain ⟨k0, v0⟩ := kv
    by_cases h0 : k0 = k
    · subst h0
      simp [cfgSet, cfgGet, hk]
    · by_cases h1 : k0 = j <;> simp [cfgSet, cfgGet, h0, h1, hk, h, ih]

theorem cfgHas_set_self (c : Config) (k v : String) : cfgHas (cfgSet c k v) k = true := by
  induction c with
  | nil => simp [cfgSet, cfgHas]
  | cons kv rest ih =>
    obtain ⟨k0, v0⟩ := kv
    by_cases h : k0 = k <;> simp [cfgSet, cfgHas, h, ih]

theorem cfgHas_set_ne (c : Config) (k j v : String) (h : j ≠ k) :
    cfgHas (cfgSet c k v) j = cfgHas c j := by
  have hk : k ≠ j := Ne.symm h
  induction c with
  | nil => simp [cfgSet, cfgHas, hk]
  | cons kv rest ih =>
    obtain ⟨k0, v0⟩ := kv
    by_cases h0 : k0 = k
    · subst h0
      simp [cfgSet, cfgHas, hk]
    · by_cases h1 : k0 = j <;> simp [cfgSet, cfgHas, h0, h1, hk, h, ih]

theorem cfgGet_empty_of_not_has (c : Config) (k : String) (h : cfgHas c k = false) :
    cfgGet c k = "" := by
  induction c with
  | nil => rfl
  | cons kv rest ih =>
    obtain ⟨k0, v0⟩ := kv
    by_cases h0 : k0 = k
    · simp [cfgHas, h0] at h
    · simp [cfgHas, h0] at h
      simp [cfgGet, h0, ih h]

/-! ## Helper lemmas about the join loop -/

theorem joinLoop_append_failed (pre l : List JoinAttempt)
    (hpre : ∀ b ∈ pre, b.fetched = none) : joinLoop (pre ++ l) = joinLoop l := by
  induction pre with
  | nil => rfl
  | cons b pre ih =>
    have hb : b.fetched = none := hpre b (by simp)
    show joinLoop (b :: (pre ++ l)) = joinLoop l
    rw [joinLoop, hb]
    exact ih (fun x hx => hpre x (by simp [hx]))

theorem joinLoop_reject (a : JoinAttempt) (rest : List JoinAttempt) (cert : String)
    (hfetch : a.fetched = some cert) (hrej : a.fingerprintOk = false) :
    joinLoop (a :: rest) = some (Except.error "User aborted configuration") := by
  rw [joinLoop, hfetch, hrej]
  rfl

theorem joinLoop_accept (a : JoinAttempt) (rest : List JoinAttempt) (cert : String)
    (hfetch : a.fetched = some cert) (hok : a.fingerprintOk = true) :
    joinLoop (a :: rest) = some (Except.ok
      { clusterAddress := normalizeClusterAddress a.address,
        clusterCertificate := cert, clusterPassword := a.password }) := by
  rw [joinLoop, hfetch, hok]
  rfl

/-- C3: rejecting the cluster-certificate fingerprint confirmation at the
first attempt whose certificate fetch succeeds terminates the join
immediately with the "User aborted configuration" error, the fingerprint
step is not retried (the attempts after it are never consulted), and no
completed cluster-join outcome is ever produced from those inputs. -/
theorem c3_fingerprint_reject_aborts (pre : List JoinAttempt) (a : JoinAttempt)
    (rest : List JoinAttempt) (cert : String) (hpre : ∀ b ∈ pre, b.fetched = none)
    (hfetch : a.fetched = some cert) (hrej : a.fingerprintOk = false) (wipeOk : Bool)
    (localCert : Except String String) (trustResult : Option String)
    (remotePools : Except String (List StoragePool))
    (remoteNetworks : Except String (List Network)) (askSource askIface : String → String) :
    joinLoop (pre ++ a :: rest) = some (Except.error "User aborted configuration") ∧
    askClusteringJoin (pre ++ a :: rest) wipeOk localCert trustResult remotePools
        remoteNetworks askSource askIface = some (Except.error "User aborted configuration") ∧
    ∀ outcome : ClusterJoinOutcome,
      askClusteringJoin (pre ++ a :: rest) wipeOk localCert trustResult remotePools
        remoteNetworks askSource askIface ≠ some (Except.ok outcome) := by
  have h1 : joinLoop (pre ++ a :: rest) = some (Except.error "User aborted configuration") := by
    rw [joinLoop_append_failed pre _ hpre, joinLoop_reject a rest cert hfetch hrej]
  have h2 : askClusteringJoin (pre ++ a :: rest) wipeOk localCert trustResult remotePools
      remoteNetworks askSource askIface = some (Except.error "User aborted configuration") := by
    rw [askClusteringJoin, h1]
  exact ⟨h1, h2, fun outcome hout => by rw [h2] at hout; exact nomatch Option.some.inj hout⟩

/-- Witness for C3 at a concrete input: one failed fetch, then a successful
fetch whose fingerprint the operator rejects. -/
theorem c3_fingerprint_reject_aborts_witness :
    askClusteringJoin
      [{ address := "10.1.1.10", fetched := none, fingerprintOk := true, password := "" },
       { address := "10.1.1.11", fetched := some "CERTPEM", fingerprintOk := false, password := "" }]
      true (Except.ok "localcert") none (Except.ok []) (Except.ok [])
      (fun _ => "") (fun _ => "")
      = some (Except.error "User aborted configuration") :=
  (c3_fingerprint_reject_aborts
    [{ address := "10.1.1.10", fetched := none, fingerprintOk := true, password := "" }]
    { address := "10.1.1.11", fetched := some "CERTPEM", fingerprintOk := false, password := "" }
    [] "CERTPEM"
    (by intro b hb; rw [List.mem_singleton] at hb; subst hb; rfl)
    rfl rfl true (Except.ok "localcert") none (Except.ok []) (Except.ok [])
    (fun _ => "") (fun _ => "")).2.1

/-- C7: a cluster address entered without an explicit port (one
`net.SplitHostPort` rejects) is stored with the fixed default management port
8443 appended; an address that already splits into host and port is stored
unchanged; and the address the join loop stores is exactly the normalized
input of the accepted attempt. -/
theorem c7_cluster_address_port (s : String) (a : JoinAttempt) (rest : List JoinAttempt)
    (cert : String) (hs : splitHostPortOk s = false) (hfetch : a.fetched = some cert)
    (hok : a.fingerprintOk = true) :
    normalizeClusterAddress s = s ++ ":8443" ∧
    (∀ t : String, splitHostPortOk t = true → normalizeClusterAddress t = t) ∧
    joinLoop (a :: rest) = some (Except.ok
      { clusterAddress := normalizeClusterAddress a.address,
        clusterCertificate := cert, clusterPassword := a.password }) := by
  refine ⟨?_, ?_, joinLoop_accept a rest cert hfetch hok⟩
  · rw [normalizeClusterAddress, hs]
    rfl
  · intro t ht
    rw [normalizeClusterAddress, ht]
    rfl

/-- Witness for C7 at concrete inputs: a bare IP gets `:8443` appended, an
address with a port is kept, and the stored cluster address of an accepted
attempt is the normalized one. -/
theorem c7_cluster_address_port_witness :
    normalizeClusterAddress "10.0.0.1" = "10.0.0.1:8443" ∧
    normalizeClusterAddress "example.com:443" = "example.com:443" ∧
    joinLoop [{ address := "example.com", fetched := some "CERT", fingerprintOk := true, password := "pw" }]
      = some (Except.ok
        { clusterAddress := "example.com:8443",
          clusterCertificate := "CERT", clusterPassword := "pw" }) := by
  have h := c7_cluster_address_port "10.0.0.1"
    { address := "example.com", fetched := some "CERT", fingerprintOk := true, password := "pw" }
    [] "CERT" (by decide) rfl rfl
  refine ⟨h.1, h.2.1 "example.com:443" (by decide), ?_⟩
  rw [h.2.2]
  rfl

/-! ## Helper lemmas about the join-mode pool reconciliation -/

theorem reconcilePools_eq_filter (askSource : String → String) (pools : List StoragePool) :
    reconcilePools askSource pools
      = (pools.filter (fun p => !(p.status == "PENDING") && !(p.driver == "ceph"))).map
          (reconcilePool askSource) := by
  induction pools with
  | nil => rfl
  | cons p rest ih =>
    by_cases h1 : p.status = "PENDING"
    · simp [reconcilePools, List.filter_cons, h1, ih]
    · by_cases h2 : p.driver = "ceph" <;>
        simp [reconcilePools, List.filter_cons, h1, h2, ih]

theorem reconcilePool_name_driver (askSource : String → String) (p : StoragePool) :
    (reconcilePool askSource p).name = p.name ∧
    (reconcilePool askSource p).driver = p.driver := by
  rw [reconcilePool]
  split <;> exact ⟨rfl, rfl⟩

/-- C2 (amended): the join-mode pool reconciliation keeps exactly the remote
pools whose status is not the literal `"PENDING"` and whose driver is not
`"ceph"`, each with name and driver copied verbatim; in particular, given one
pool with status `"PENDING"` and one with status `"READY"`, the output
contains exactly the ready pool.  (The comparison is case-sensitive: a
lowercase `"pending"` status is NOT skipped.) -/
theorem c2_reconcile_pools_filter (askSource : String → String) (pools : List StoragePool) :
    reconcilePools askSource pools
      = (pools.filter (fun p => !(p.status == "PENDING") && !(p.driver == "ceph"))).map
          (reconcilePool askSource) ∧
    (∀ p : StoragePool, (reconcilePool askSource p).name = p.name ∧
      (reconcilePool askSource p).driver = p.driver) ∧
    (∀ p1 p2 : StoragePool, p1.status = "PENDING" → p2.status = "READY" →
      p2.driver ≠ "ceph" →
      reconcilePools askSource [p1, p2] = [reconcilePool askSource p2]) := by
  refine ⟨reconcilePools_eq_filter askSource pools, reconcilePool_name_driver askSource, ?_⟩
  intro p1 p2 h1 h2 hd
  have h2' : ¬p2.status = "PENDING" := by rw [h2]; decide
  simp [reconcilePools, h1, h2', hd]

/-- Witness for C2 (amended) at a concrete input: a `"PENDING"` pool is
dropped, a `"READY"` zfs pool is kept verbatim. -/
theorem c2_reconcile_pools_filter_witness :
    reconcilePools (fun _ => "") 
      [{ name := "p1", driver := "zfs", status := "PENDING", description := "", config := [] },
       { name := "p2", driver := "zfs", status := "READY", description := "", config := [] }]
      = [reconcilePool (fun _ => "")
          { name := "p2", driver := "zfs", status := "READY", description := "", config := [] }] :=
  (c2_reconcile_pools_filter (fun _ => "") []).2.2
    { name := "p1", driver := "zfs", status := "PENDING", description := "", config := [] }
    { name := "p2", driver := "zfs", status := "READY", description := "", config := [] }
    rfl rfl (by decide)

/-- C2 counterexample: the claim's concrete instance uses the literal
statuses `"pending"` and `"ready"`; the code compares against `"PENDING"`
case-sensitively, so NEITHER pool is skipped and the output contains two
pools, not exactly the ready one. -/
theorem c2_lowercase_pending_not_skipped :
    (reconcilePools (fun _ => "")
      [{ name := "p1", driver := "zfs", status := "pending", description := "", config := [] },
       { name := "p2", driver := "zfs", status := "ready", description := "", config := [] }]).map
        StoragePoolsPost.name = ["p1", "p2"] ∧
    reconcilePools (fun _ => "")
      [{ name := "p1", driver := "zfs", status := "pending", description := "", config := [] },
       { name := "p2", driver := "zfs", status := "ready", description := "", config := [] }]
      ≠ [reconcilePool (fun _ => "")
          { name := "p2", driver := "zfs", status := "ready", description := "", config := [] }] := by
  constructor
  · rfl
  · intro h
    exact nomatch congrArg List.length h

/-- C9: when a remote pool's config carries a non-empty `source`, the local
pool's config is the remote config with `source` replaced by the operator's
answer; the key stays present with the answer as value, even when the answer
is the empty string. -/
theorem c9_source_replaced (askSource : String → String) (pool : StoragePool)
    (h : cfgGet pool.config "source" ≠ "") :
    (reconcilePool askSource pool).config = cfgSet pool.config "source" (askSource pool.name) ∧
    cfgGet (reconcilePool askSource pool).config "source" = askSource pool.name ∧
    cfgHas (reconcilePool askSource pool).config "source" = true := by
  have hcfg : (reconcilePool askSource pool).config
      = cfgSet pool.config "source" (askSource pool.name) := by
    rw [reconcilePool, if_pos h]
  refine ⟨hcfg, ?_, ?_⟩
  · rw [hcfg, cfgGet_set_self]
  · rw [hcfg, cfgHas_set_self]

/-- Witness for C9 at a concrete input: the remote `source` is `/dev/sdb`,
the operator answers nothing, and the local config keeps an explicit empty
`source` key while the other keys survive. -/
theorem c9_source_replaced_witness :
    (reconcilePool (fun _ => "")
      { name := "p", driver := "zfs", status := "CREATED", description := "",
        config := [("size", "30GB"), ("source", "/dev/sdb")] }).config
      = [("size", "30GB"), ("source", "")] ∧
    cfgHas (reconcilePool (fun _ => "")
      { name := "p", driver := "zfs", status := "CREATED", description := "",
        config := [("size", "30GB"), ("source", "/dev/sdb")] }).config "source" = true := by
  have h := c9_source_replaced (fun _ => "")
    { name := "p", driver := "zfs", status := "CREATED", description := "",
      config := [("size", "30GB"), ("source", "/dev/sdb")] } (by decide)
  exact ⟨by rw [h.1]; rfl, h.2.2⟩

/-- C6: on a newly created bridge, for each protocol the NAT config key is
present if and only if the chosen address is a concrete CIDR (neither the
literal `"auto"` nor `"none"`), and when present it holds the operator's NAT
answer; an auto/none choice leaves the key absent. -/
theorem c6_bridge_nat_iff (name addr4 addr6 : String) (nat4 nat6 : Bool) :
    cfgHas (buildBridgeNetwork name addr4 addr6 nat4 nat6).network.config "ipv4.nat"
      = !stringInSlice addr4 ["auto", "none"] ∧
    cfgGet (buildBridgeNetwork name addr4 addr6 nat4 nat6).network.config "ipv4.nat"
      = (if stringInSlice addr4 ["auto", "none"] then "" else boolString nat4) ∧
    cfgHas (buildBridgeNetwork name addr4 addr6 nat4 nat6).network.config "ipv6.nat"
      = !stringInSlice addr6 ["auto", "none"] ∧
    cfgGet (buildBridgeNetwork name addr4 addr6 nat4 nat6).network.config "ipv6.nat"
      = (if stringInSlice addr6 ["auto", "none"] then "" else boolString nat6) := by
  cases h4 : stringInSlice addr4 ["auto", "none"] <;>
    cases h6 : stringInSlice addr6 ["auto", "none"] <;>
      simp [buildBridgeNetwork, h4, h6, cfgHas, cfgGet, cfgSet]

/-! ## Helper lemma: two writes to other keys do not disturb a key -/

theorem cfgHas_set_set_other (config : Config) (k a b va vb : String)
    (hka : k ≠ a) (hkb : k ≠ b) :
    cfgHas (cfgSet (cfgSet config a va) b vb) k = cfgHas config k := by
  rw [cfgHas_set_ne _ _ _ _ hkb, cfgHas_set_ne _ _ _ _ hka]

theorem cfgGet_set_set_other (config : Config) (k a b va vb : String)
    (hka : k ≠ a) (hkb : k ≠ b) :
    cfgGet (cfgSet (cfgSet config a va) b vb) k = cfgGet config k := by
  rw [cfgGet_set_ne _ _ _ _ hkb, cfgGet_set_ne _ _ _ _ hka]

/-- C10: in the MAAS step (operator connecting to MAAS), `maas.machine` is
written if and only if the effective hostname answer differs from the system
hostname, it then holds that answer, and `maas.api.url` and `maas.api.key`
are always written. -/
theorem c10_maas_machine (serverName hostAnswer urlAnswer keyAnswer : String) (config : Config)
    (h : cfgHas config "maas.machine" = false) :
    cfgHas (askMAAS true serverName hostAnswer urlAnswer keyAnswer config) "maas.machine"
      = !(askString serverName hostAnswer == serverName) ∧
    (askString serverName hostAnswer ≠ serverName →
      cfgGet (askMAAS true serverName hostAnswer urlAnswer keyAnswer config) "maas.machine"
        = askString serverName hostAnswer) ∧
    cfgHas (askMAAS true serverName hostAnswer urlAnswer keyAnswer config) "maas.api.url" = true ∧
    cfgHas (askMAAS true serverName hostAnswer urlAnswer keyAnswer config) "maas.api.key" = true := by
  by_cases hm : askString serverName hostAnswer = serverName
  · have e1 : askMAAS true serverName hostAnswer urlAnswer keyAnswer config
        = cfgSet (cfgSet config "maas.api.url" (askString "" urlAnswer))
            "maas.api.key" (askString "" keyAnswer) := by
      rw [askMAAS]
      simp [hm]
    refine ⟨?_, fun hcon => absurd hm hcon, ?_, ?_⟩
    · rw [e1, cfgHas_set_set_other _ _ _ _ _ _ (by decide) (by decide), h, hm]
      simp
    · rw [e1, cfgHas_set_ne _ _ _ _ (by decide), cfgHas_set_self]
    · rw [e1, cfgHas_set_self]
  · have e1 : askMAAS true serverName hostAnswer urlAnswer keyAnswer config
        = cfgSet (cfgSet (cfgSet config "maas.machine" (askString serverName hostAnswer))
            "maas.api.url" (askString "" urlAnswer))
            "maas.api.key" (askString "" keyAnswer) := by
      rw [askMAAS]
      simp [hm]
    refine ⟨?_, fun _ => ?_, ?_, ?_⟩
    · rw [e1, cfgHas_set_set_other _ _ _ _ _ _ (by decide) (by decide), cfgHas_set_self]
      simp [hm]
    · rw [e1, cfgGet_set_set_other _ _ _ _ _ _ (by decide) (by decide), cfgGet_set_self]
    · rw [e1, cfgHas_set_ne _ _ _ _ (by decide), cfgHas_set_self]
    · rw [e1, cfgHas_set_self]

/-- Witness for C10 at concrete inputs: accepting the default hostname leaves
`maas.machine` absent; answering a different hostname writes it. -/
theorem c10_maas_machine_witness :
    cfgHas (askMAAS true "host1" "" "http://maas" "key" []) "maas.machine" = false ∧
    cfgHas (askMAAS true "host1" "" "http://maas" "key" []) "maas.api.url" = true ∧
    cfgHas (askMAAS true "host1" "other" "http://maas" "key" []) "maas.machine" = true ∧
    cfgGet (askMAAS true "host1" "other" "http://maas" "key" []) "maas.machine" = "other" := by
  have h1 := c10_maas_machine "host1" "" "http://maas" "key" [] rfl
  have h2 := c10_maas_machine "host1" "other" "http://maas" "key" [] rfl
  exact ⟨by rw [h1.1]; rfl, h1.2.2.1, by rw [h2.1]; rfl, h2.2.1 (by decide)⟩

/-- C8: the image auto-refresh setting equals `"0"` in the daemon
configuration if and only if the operator declines automatic updates; when
the operator accepts, the key is omitted entirely. -/
theorem c8_auto_update_interval (isV4 : String → Bool) (clusterNil overNetwork : Bool)
    (netAddrAnswer : String) (netPort : Int) (trustPassword : String) (autoUpdate : Bool)
    (config : Config) (h : cfgHas config "images.auto_update_interval" = false) :
    cfgHas (askDaemon isV4 clusterNil overNetwork netAddrAnswer netPort trustPassword
        autoUpdate config) "images.auto_update_interval" = !autoUpdate ∧
    cfgGet (askDaemon isV4 clusterNil overNetwork netAddrAnswer netPort trustPassword
        autoUpdate config) "images.auto_update_interval"
      = (if autoUpdate then "" else "0") := by
  have hc1 : ∀ c1 : Config, cfgHas c1 "images.auto_update_interval" = false →
      cfgHas (if !autoUpdate then cfgSet c1 "images.auto_update_interval" "0" else c1)
          "images.auto_update_interval" = !autoUpdate ∧
      cfgGet (if !autoUpdate then cfgSet c1 "images.auto_update_interval" "0" else c1)
          "images.auto_update_interval" = (if autoUpdate then "" else "0") := by
    intro c1 hc
    cases autoUpdate with
    | false => simp [cfgHas_set_self, cfgGet_set_self]
    | true => simp [hc, cfgGet_empty_of_not_has c1 _ hc]
  by_cases hl : (clusterNil && overNetwork) = true
  · rw [askDaemon]
    rw [if_pos hl]
    exact hc1 _ (by rw [cfgHas_set_set_other _ _ _ _ _ _ (by decide) (by decide)]; exact h)
  · rw [askDaemon]
    rw [if_neg hl]
    exact hc1 _ h

/-- Witness for C8 at concrete inputs: declining auto-update writes `"0"`,
accepting leaves the key absent. -/
theorem c8_auto_update_interval_witness :
    cfgGet (askDaemon (fun _ => true) true true "all" 8443 "pw" false [])
      "images.auto_update_interval" = "0" ∧
    cfgHas (askDaemon (fun _ => true) true true "all" 8443 "pw" true [])
      "images.auto_update_interval" = false := by
  have h1 := c8_auto_update_interval (fun _ => true) true true "all" 8443 "pw" false [] rfl
  have h2 := c8_auto_update_interval (fun _ => true) true true "all" 8443 "pw" true [] rfl
  exact ⟨by rw [h1.2]; rfl, by rw [h2.1]; rfl⟩

/-- C1 counterexample: the code computes the default from the TOTAL block
count of the data-directory filesystem, not from its free space.  On a
filesystem of 250 GiB (1 GiB fragment size) with only 50 GiB free, the code
offers 50 GB while 20% of the free space, clamped, would be 15 GB. -/
theorem c1_size_uses_total_not_free :
    defaultPoolSize { frsize := 1073741824, blocks := 250, bfree := 50 } = 50 ∧
    specFreeSpacePoolSize { frsize := 1073741824, blocks := 250, bfree := 50 } = 15 ∧
    defaultPoolSize { frsize := 1073741824, blocks := 250, bfree := 50 }
      ≠ specFreeSpacePoolSize { frsize := 1073741824, blocks := 250, bfree := 50 } :=
  ⟨by decide, by decide, by decide⟩

/-- C1 (amended): the offered default loop-device size is 20% of the TOTAL
size of the data-directory's filesystem in gigabytes, clamped to [15, 100]:
inside the clamp range it equals the raw figure, it always lies in [15, 100],
pre-clamp figures of 10, 50 and 500 yield 15, 50 and 100, and the size prompt
(issued with minimum 1 and no maximum) only ever accepts an answer of at
least 1. -/
theorem c1_loop_size_default (st : Statfs)
    (h1 : 15 ≤ rawPoolSize st) (h2 : rawPoolSize st ≤ 100) :
    defaultPoolSize st = rawPoolSize st ∧
    (∀ st2 : Statfs, 15 ≤ defaultPoolSize st2 ∧ defaultPoolSize st2 ≤ 100) ∧
    defaultPoolSize { frsize := 1073741824, blocks := 50, bfree := 50 } = 15 ∧
    defaultPoolSize { frsize := 1073741824, blocks := 250, bfree := 250 } = 50 ∧
    defaultPoolSize { frsize := 1073741824, blocks := 2500, bfree := 2500 } = 100 ∧
    (∀ (d : Int) (ans : List (Option Int)) (n : Int), askInt 1 (-1) d ans = some n → 1 ≤ n) := by
  refine ⟨?_, ?_, by decide, by decide, by decide, ?_⟩
  · simp only [defaultPoolSize]
    split_ifs <;> omega
  · intro st2
    simp only [defaultPoolSize]
    split_ifs <;> omega
  · intro d ans n hfind
    rw [askInt] at hfind
    have hp := List.find?_some hfind
    simp only [Bool.and_eq_true, decide_eq_true_eq] at hp
    exact hp.1

/-- Witness for C1 (amended) at a concrete input: a 250 GiB filesystem whose
raw 20% figure, 50, lies inside the clamp range and is offered unchanged. -/
theorem c1_loop_size_default_witness :
    defaultPoolSize { frsize := 1073741824, blocks := 250, bfree := 100 }
      = rawPoolSize { frsize := 1073741824, blocks := 250, bfree := 100 } :=
  (c1_loop_size_default { frsize := 1073741824, blocks := 250, bfree := 100 }
    (by decide) (by decide)).1

/-- C4 counterexample: the backing-filesystem match is implemented only for
btrfs.  With the backing filesystem value `"dir"` (the code's own detection
fallback) and a candidate set containing both `"dir"` and `"zfs"`, the
computed default is `"zfs"`, not the matching driver `"dir"`. -/
theorem c4_backing_match_only_btrfs :
    stringInSlice "dir" ["btrfs", "ceph", "dir", "lvm", "zfs"] = true ∧
    defaultStorageDriver "dir" ["btrfs", "ceph", "dir", "lvm", "zfs"] = "zfs" ∧
    defaultStorageDriver "dir" ["btrfs", "ceph", "dir", "lvm", "zfs"] ≠ "dir" :=
  ⟨by decide, by decide, by decide⟩

/-- C4 (amended): the backing-filesystem match is applied only for the btrfs
driver.  Whenever the backing filesystem is btrfs (resp. zfs) and that driver
is a candidate, the default equals it; otherwise the priority is zfs if
present, then btrfs if present, then dir. -/
theorem c4_default_driver_priority (cands : List String) (bf : String)
    (h : ¬(bf = "btrfs" ∧ stringInSlice "btrfs" cands = true)) :
    (∀ c2 : List String, stringInSlice "btrfs" c2 = true →
      defaultStorageDriver "btrfs" c2 = "btrfs") ∧
    (∀ c2 : List String, stringInSlice "zfs" c2 = true →
      defaultStorageDriver "zfs" c2 = "zfs") ∧
    (stringInSlice "zfs" cands = true → defaultStorageDriver bf cands = "zfs") ∧
    (stringInSlice "zfs" cands = false → stringInSlice "btrfs" cands = true →
      defaultStorageDriver bf cands = "btrfs") ∧
    (stringInSlice "zfs" cands = false → stringInSlice "btrfs" cands = false →
      defaultStorageDriver bf cands = "dir") := by
  have hfirst : (bf = "btrfs" && stringInSlice "btrfs" cands) = false := by
    by_cases hbf : bf = "btrfs"
    · cases hsb : stringInSlice "btrfs" cands
      · simp [hsb]
      · exact absurd ⟨hbf, hsb⟩ h
    · simp [hbf]
  refine ⟨?_, ?_, ?_, ?_, ?_⟩
  · intro c2 hc
    simp [defaultStorageDriver, hc]
  · intro c2 hc
    simp [defaultStorageDriver, hc]
  · intro hz
    simp only [defaultStorageDriver, decide_eq_true_eq]
    rw [if_neg (by simp_all), if_pos hz]
  · intro hz hb
    simp only [defaultStorageDriver]
    rw [if_neg (by simp_all), if_neg (by simp [hz]), if_pos hb]
  · intro hz hb
    simp only [defaultStorageDriver]
    rw [if_neg (by simp_all), if_neg (by simp [hz]), if_neg (by simp [hb])]

/-- Witness for C4 (amended) at a concrete input: on an ext4 backing
filesystem with zfs available, the default is zfs. -/
theorem c4_default_driver_priority_witness :
    defaultStorageDriver "ext4" ["zfs", "dir"] = "zfs" :=
  (c4_default_driver_priority ["zfs", "dir"] "ext4" (by decide)).2.2.1 (by decide)

/-! ## Helper lemmas about storage-pool planning -/

theorem poolBody_name (host : StorageHost) (ans : StorageAnswers) (backingFs ds b : String)
    (bs : List String) (name : String) (r : PoolPlan)
    (h : poolBody host ans backingFs ds b bs name = some (Except.ok r)) :
    r.pool.name = name := by
  simp only [poolBody] at h
  repeat' split at h
  all_goals
    first
    | (simp only [Option.some.injEq, Except.ok.injEq] at h
       subst h
       rfl)
    | simp at h

theorem askStoragePool_fixed_name (host : StorageHost) (ans : StorageAnswers)
    (b : String) (bs : List String) (poolType : String) (proposals : List String) (r : PoolPlan)
    (hpt : poolType ≠ "all")
    (h : askStoragePool host ans (b :: bs) poolType proposals = some (Except.ok r)) :
    r.pool.name = poolType := by
  simp only [askStoragePool] at h
  rw [if_neg hpt] at h
  split at h
  · simp at h
  · exact poolBody_name host ans _ _ b bs poolType r h

theorem askStorage_names_nodup (host : StorageHost) (ansLocal ansRemote ansAll : StorageAnswers)
    (clusterEnabled confLocal confRemote confPool : Bool)
    (bL bR bA : List String) (proposals : List String) (pools : List PoolPlan)
    (h : askStorage host ansLocal ansRemote ansAll clusterEnabled confLocal confRemote confPool
      bL bR bA proposals = some (Except.ok pools)) :
    (pools.map (fun r => r.pool.name)).Nodup := by
  rw [askStorage] at h
  cases clusterEnabled with
  | false =>
    rw [if_neg (by decide)] at h
    cases confPool with
    | false =>
      simp only [Bool.not_false, if_pos] at h
      simp only [Option.some.injEq, Except.ok.injEq] at h
      subst h
      simp
    | true =>
      simp only [Bool.not_true] at h
      rw [if_neg (by decide)] at h
      split at h
      · exact absurd h (by simp)
      · simp at h
      · simp only [Option.some.injEq, Except.ok.injEq] at h
        subst h
        simp
  | true =>
    rw [if_pos rfl] at h
    cases confLocal with
    | false =>
      simp only [Bool.false_eq_true, if_false] at h
      cases confRemote with
      | false =>
        simp only [Bool.false_eq_true, if_false] at h
        simp only [Option.some.injEq, Except.ok.injEq] at h
        subst h
        simp
      | true =>
        simp only [if_true] at h
        split at h
        · exact absurd h (by simp)
        · simp at h
        · simp only [Option.some.injEq, Except.ok.injEq] at h
          subst h
          simp
    | true =>
      simp only [if_true] at h
      cases h1 : askStoragePool host ansLocal bL "local" [] with
      | none => rw [h1] at h; exact absurd h (by simp)
      | some res1 =>
        cases res1 with
        | error e => rw [h1] at h; simp at h
        | ok r1 =>
          rw [h1] at h
          cases confRemote with
          | false =>
            simp only [Bool.false_eq_true, if_false] at h
            simp only [Option.some.injEq, Except.ok.injEq] at h
            subst h
            simp
          | true =>
            simp only [if_true] at h
            cases h2 : askStoragePool host ansRemote bR "remote" [] with
            | none => rw [h2] at h; exact absurd h (by simp)
            | some res2 =>
              cases res2 with
              | error e => rw [h2] at h; simp at h
              | ok r2 =>
                rw [h2] at h
                simp only [Option.some.injEq, Except.ok.injEq] at h
                subst h
                cases bL with
                | nil => simp [askStoragePool] at h1
                | cons b bs =>
                  cases bR with
                  | nil => simp [askStoragePool] at h2
                  | cons b2 bs2 =>
                    have n1 := askStoragePool_fixed_name host ansLocal b bs "local" [] r1
                      (by decide) h1
                    have n2 := askStoragePool_fixed_name host ansRemote b2 bs2 "remote" [] r2
                      (by decide) h2
                    simp [n1, n2]

/-- C5: a planned pool name colliding with an existing local pool is rejected
and re-prompted when the role is free-form (`"all"`); a collision on a fixed
role name (`"local"`/`"remote"`) fails immediately with a fatal error; and a
successful storage-planning run never returns two pools with the same name. -/
theorem c5_pool_name_collision :
    (∀ (host : StorageHost) (ans : StorageAnswers) (b : String) (bs : List String)
       (backingFs ds p : String) (rest : List String),
       host.existingPools.contains (askString "default" p) = true →
       askStoragePoolNameLoop host ans b bs backingFs ds (p :: rest)
         = askStoragePoolNameLoop host ans b bs backingFs ds rest) ∧
    (∀ (host : StorageHost) (ans : StorageAnswers) (b : String) (bs : List String)
       (poolType : String) (proposals : List String), poolType ≠ "all" →
       host.existingPools.contains poolType = true →
       askStoragePool host ans (b :: bs) poolType proposals
         = some (Except.error ("The " ++ poolType ++ " storage pool already exists"))) ∧
    (∀ (host : StorageHost) (ansLocal ansRemote ansAll : StorageAnswers)
       (clusterEnabled confLocal confRemote confPool : Bool)
       (bL bR bA : List String) (proposals : List String) (pools : List PoolPlan),
       askStorage host ansLocal ansRemote ansAll clusterEnabled confLocal confRemote confPool
         bL bR bA proposals = some (Except.ok pools) →
       (pools.map (fun r => r.pool.name)).Nodup) := by
  refine ⟨?_, ?_, ?_⟩
  · intro host ans b bs backingFs ds p rest hcoll
    simp only [askStoragePoolNameLoop]
    rw [if_pos hcoll]
  · intro host ans b bs poolType proposals hpt hcoll
    simp only [askStoragePool]
    rw [if_neg hpt, if_pos hcoll]
  · intro host ansLocal ansRemote ansAll clusterEnabled confLocal confRemote confPool
      bL bR bA proposals pools h
    exact askStorage_names_nodup host ansLocal ansRemote ansAll clusterEnabled confLocal
      confRemote confPool bL bR bA proposals pools h

/-- Witness for C5 at concrete inputs: the proposal `""` (defaulted to
`"default"`, which exists) is skipped by the naming loop; a fixed `"local"`
role colliding with an existing `"local"` pool is a fatal error; and a
concrete successful cluster-mode run returns pools named `"local"` and
`"remote"`, without duplicates. -/
theorem c5_pool_name_collision_witness :
    askStoragePoolNameLoop
      ⟨["default", "local"], some "ext4", Except.ok ⟨1073741824, 250, 100⟩,
        fun _ => false, true, "/var/lib/lxd"⟩
      ⟨[], false, true, "", "", "", false, [], [], "", "", "", true⟩
      "dir" [] "ext4" "dir" ["", "fresh"]
      = askStoragePoolNameLoop
      ⟨["default", "local"], some "ext4", Except.ok ⟨1073741824, 250, 100⟩,
        fun _ => false, true, "/var/lib/lxd"⟩
      ⟨[], false, true, "", "", "", false, [], [], "", "", "", true⟩
      "dir" [] "ext4" "dir" ["fresh"] ∧
    askStoragePool
      ⟨["default", "local"], some "ext4", Except.ok ⟨1073741824, 250, 100⟩,
        fun _ => false, true, "/var/lib/lxd"⟩
      ⟨[], false, true, "", "", "", false, [], [], "", "", "", true⟩
      ["zfs"] "local" []
      = some (Except.error "The local storage pool already exists") ∧
    (([mkPoolPlan "local" "dir" [], mkPoolPlan "remote" "dir" []]).map
      (fun r => r.pool.name)).Nodup := by
  refine ⟨?_, ?_, ?_⟩
  · exact c5_pool_name_collision.1
      ⟨["default", "local"], some "ext4", Except.ok ⟨1073741824, 250, 100⟩,
        fun _ => false, true, "/var/lib/lxd"⟩
      ⟨[], false, true, "", "", "", false, [], [], "", "", "", true⟩
      "dir" [] "ext4" "dir" "" ["fresh"] (by decide)
  · exact c5_pool_name_collision.2.1
      ⟨["default", "local"], some "ext4", Except.ok ⟨1073741824, 250, 100⟩,
        fun _ => false, true, "/var/lib/lxd"⟩
      ⟨[], false, true, "", "", "", false, [], [], "", "", "", true⟩
      "zfs" [] "local" [] (by decide) (by decide)
  · exact c5_pool_name_collision.2.2
      ⟨["default"], some "ext4", Except.ok ⟨1073741824, 250, 100⟩,
        fun _ => false, true, "/var/lib/lxd"⟩
      ⟨[], false, true, "", "", "", false, [], [], "", "", "", true⟩
      ⟨[], false, true, "", "", "", false, [], [], "", "", "", true⟩
      ⟨[], false, true, "", "", "", false, [], [], "", "", "", true⟩
      true true true false ["dir"] ["dir"] [] []
      [mkPoolPlan "local" "dir" [], mkPoolPlan "remote" "dir" []] rfl
